import Mathlib

/-!
Verification of the orbistream `SrtStreamer` core
(`app/src/main/jni/srt_streamer.cpp` and `srt_streamer.h`).

The development shallowly embeds the stream-telemetry aggregator
(`SrtStreamer::Impl::updateSrtStats`), the adaptive-bitrate controller
(`SrtStreamer::Impl::updateAdaptiveBitrate`), and the lifecycle operations
(`createPipeline`, `start`, `getStats`, the encoder-output byte probe).

Modelling conventions:
- `std::chrono` time points are milliseconds as `Nat` (the steady clock is
  monotone, so `duration_cast<milliseconds>(a - b).count()` is Nat
  subtraction `a - b`).
- C++ `int` / `int64_t` are `Int`; C++ integer division truncates toward
  zero, which is `Int.tdiv`.
- `uint64_t` counters are `Nat`; the `static_cast<uint64_t>` of a `gint64`
  is reduction modulo `2 ^ 64`.
- C++ `double` values (`currentBitrate`, `rtt`, the loss rate) are `ℚ`,
  the exact idealization of the floating-point arithmetic.
- The GStreamer engine is an external collaborator: element handles become
  `Bool` fields (pointer non-null), engine accept/reject decisions become
  `Bool` parameters, and the `stats` property of `srtsink` becomes an
  `Option SrtSinkStats` input (one field per `gint64`/`gdouble` local that
  `updateSrtStats` reads; `gst_structure_get_*` leaves a local at its
  initialisation value `0` when every probed field name is absent).
-/

/-- Transport mode, from `srt_streamer.h`. -/
inductive TransportMode where
  | SRT
  | UDP
deriving DecidableEq

/-- Encoder speed preset, from `srt_streamer.h`. -/
inductive EncoderPreset where
  | ULTRAFAST
  | SUPERFAST
  | VERYFAST
  | FASTER
  | FAST
  | MEDIUM
  | SLOW
  | SLOWER
  | VERYSLOW
deriving DecidableEq

/-- SRT connection state, from `srt_streamer.h`. -/
inductive SrtConnectionState where
  | DISCONNECTED
  | CONNECTING
  | CONNECTED
  | BROKEN
deriving DecidableEq

/-- Streaming configuration, from `struct StreamConfig` in `srt_streamer.h`. -/
structure StreamConfig where
  transport : TransportMode
  srtHost : String
  srtPort : Int
  streamId : String
  passphrase : String
  videoWidth : Int
  videoHeight : Int
  videoBitrate : Int
  frameRate : Int
  preset : EncoderPreset
  keyframeInterval : Int
  bFrames : Int
  audioBitrate : Int
  sampleRate : Int
  audioChannels : Int
  proxyHost : String
  proxyPort : Int
  useProxy : Bool
deriving DecidableEq

/-- Default member initialisers of `StreamConfig` in `srt_streamer.h`. -/
def defaultStreamConfig : StreamConfig :=
  { transport := TransportMode.UDP
    srtHost := ""
    srtPort := 9000
    streamId := ""
    passphrase := ""
    videoWidth := 1920
    videoHeight := 1080
    videoBitrate := 4000000
    frameRate := 30
    preset := EncoderPreset.ULTRAFAST
    keyframeInterval := 2
    bFrames := 0
    audioBitrate := 128000
    sampleRate := 48000
    audioChannels := 2
    proxyHost := "127.0.0.1"
    proxyPort := 28007
    useProxy := true }

/-- Streaming statistics snapshot, from `struct StreamStats` in `srt_streamer.h`. -/
structure StreamStats where
  currentBitrate : ℚ
  bytesSent : Nat
  packetsLost : Nat
  packetsRetransmitted : Nat
  packetsDropped : Nat
  rtt : ℚ
  rttVariance : ℚ
  bandwidth : Int
  streamTimeMs : Nat
  connectionState : SrtConnectionState
deriving DecidableEq

/-- Default member initialisers of `StreamStats` in `srt_streamer.h`. -/
def defaultStreamStats : StreamStats :=
  { currentBitrate := 0
    bytesSent := 0
    packetsLost := 0
    packetsRetransmitted := 0
    packetsDropped := 0
    rtt := 0
    rttVariance := 0
    bandwidth := 0
    streamTimeMs := 0
    connectionState := SrtConnectionState.DISCONNECTED }

/-- The values `updateSrtStats` extracts from the `srtsink` `stats`
structure (`srt_streamer.cpp` lines 587-636).  Each field is the local
variable of the same name; when none of the probed field-name spellings is
present in the structure the local keeps its initialisation value `0`. -/
structure SrtSinkStats where
  byteSentTotal : Int
  pktSentTotal : Int
  pktSentLoss : Int
  pktRetrans : Int
  pktSndDrop : Int
  msRTT : ℚ
  mbpsSendRate : Int
  mbpsBandwidth : Int
deriving DecidableEq

/-- `static_cast<uint64_t>` of a `gint64` value. -/
def toUInt64Cast (x : Int) : Nat := (x % (2 : Int) ^ 64).toNat

/-- State of one `SrtStreamer::Impl` object (`srt_streamer.cpp` lines
23-82).  GStreamer element pointers are modelled by `Bool` fields
recording whether they are non-null. -/
structure ImplState where
  currentConfig : StreamConfig
  streaming : Bool
  stats : StreamStats
  startTime : Nat
  lastBytesSent : Int
  lastBitrateTime : Nat
  muxerBytesSent : Nat
  currentEncoderBitrate : Int
  targetBitrate : Int
  minBitrate : Int
  maxBitrate : Int
  lastBitrateAdjustTime : Nat
  hasPipeline : Bool
  hasSrtSink : Bool
  hasVideoEncoder : Bool
deriving DecidableEq

/-- A freshly constructed `SrtStreamer::Impl`: all pointers null, counters
zero, `minBitrate = 500` (in-class member initialisers, lines 65-81). -/
def initImplState : ImplState :=
  { currentConfig := defaultStreamConfig
    streaming := false
    stats := defaultStreamStats
    startTime := 0
    lastBytesSent := 0
    lastBitrateTime := 0
    muxerBytesSent := 0
    currentEncoderBitrate := 0
    targetBitrate := 0
    minBitrate := 500
    maxBitrate := 0
    lastBitrateAdjustTime := 0
    hasPipeline := false
    hasSrtSink := false
    hasVideoEncoder := false }

/-- Loss-rate estimate of `updateAdaptiveBitrate` (`srt_streamer.cpp`
lines 721-729): estimated packets sent are `bytesSent / 1316`, and
`lossRate = packetsLost * 100 / (estPacketsSent + packetsLost)` as a
percentage, computed only when both `bytesSent` and the estimate are
positive. -/
def abrLossRate (st : ImplState) : ℚ :=
  if st.stats.bytesSent > 0 then
    let estPacketsSent : Nat := st.stats.bytesSent / 1316
    if estPacketsSent > 0 then
      ((st.stats.packetsLost : ℚ) * 100) / ((estPacketsSent : ℚ) + (st.stats.packetsLost : ℚ))
    else 0
  else 0

/-- Decision ladder of `updateAdaptiveBitrate` (`srt_streamer.cpp` lines
736-753): aggressive cut to 70%, conservative cut to 90%, conservative
raise by 10% capped at `maxBitrate`, otherwise hold. -/
def abrDecision (st : ImplState) (lossRate : ℚ) : Int :=
  if lossRate > 5 ∨ st.stats.rtt > 500 then
    Int.tdiv (st.currentEncoderBitrate * 70) 100
  else if lossRate > 1 ∨ st.stats.rtt > 200 then
    Int.tdiv (st.currentEncoderBitrate * 90) 100
  else if lossRate < 1 / 2 ∧ st.stats.rtt < 100 ∧ st.currentEncoderBitrate < st.maxBitrate then
    min st.maxBitrate (Int.tdiv (st.currentEncoderBitrate * 110) 100)
  else st.currentEncoderBitrate

/-- Bandwidth ceiling of `updateAdaptiveBitrate` (`srt_streamer.cpp` lines
755-765): when an SRT bandwidth estimate is available, cap `newBitrate`
at 80% of the estimate converted from bps to kbps. -/
def abrBandwidthCeiling (st : ImplState) (newBitrate : Int) : Int :=
  if st.stats.bandwidth > 0 then
    let bwBitrate : Int := Int.tdiv st.stats.bandwidth 1000
    let bwCeiling : Int := Int.tdiv (bwBitrate * 80) 100
    if bwCeiling < newBitrate then bwCeiling else newBitrate
  else newBitrate

/-- The fully computed candidate bitrate of one ABR evaluation: decision
ladder, then bandwidth ceiling, then clamp to `[minBitrate, maxBitrate]`
(`srt_streamer.cpp` lines 736-768). -/
def abrComputedBitrate (st : ImplState) : Int :=
  max st.minBitrate
    (min st.maxBitrate (abrBandwidthCeiling st (abrDecision st (abrLossRate st))))

/-- `SrtStreamer::Impl::updateAdaptiveBitrate` (`srt_streamer.cpp` lines
709-779).  Returns the successor state together with the bitrate pushed to
the encoder via `g_object_set(videoEncoder, "bitrate", ...)`, when any.
The stats fields are read under the mutex already held by the caller. -/
def updateAdaptiveBitrate (st : ImplState) (now : Nat) : ImplState × Option Int :=
  if st.hasVideoEncoder = false ∨ st.streaming = false then (st, none)
  else
    let timeSinceLastAdjust : Nat := now - st.lastBitrateAdjustTime
    if timeSinceLastAdjust < 2000 then (st, none)
    else
      let newBitrate : Int := abrComputedBitrate st
      let diff : Int := |newBitrate - st.currentEncoderBitrate|
      if diff > Int.tdiv st.currentEncoderBitrate 20 then
        ({ st with currentEncoderBitrate := newBitrate, lastBitrateAdjustTime := now },
          some newBitrate)
      else (st, none)

/-- SRT branch of `updateSrtStats` (`srt_streamer.cpp` lines 571-674),
run when `srtSink` is non-null and its `stats` query returned a
structure: copy the packet counters, RTT and bandwidth estimate, update
`bytesSent` (preferring the sink total, falling back to the muxer byte
counter), recompute the windowed bitrate when at least 1000 ms have
elapsed, seed `currentBitrate` from the sink send rate when still zero,
and derive the connection state. -/
def srtRefresh (st : ImplState) (now : Nat) (q : SrtSinkStats) : ImplState :=
  let elapsed : Nat := now - st.lastBitrateTime
  let bytesSent : Nat :=
    if q.byteSentTotal > 0 then q.byteSentTotal.toNat else st.muxerBytesSent
  let byteDiff : Int := (bytesSent : Int) - st.lastBytesSent
  let currentBitrate1 : ℚ :=
    if elapsed ≥ 1000 ∧ bytesSent > 0 ∧ byteDiff > 0 then
      ((byteDiff : ℚ) * 8 * 1000) / (elapsed : ℚ)
    else st.stats.currentBitrate
  let lastBytesSent1 : Int :=
    if elapsed ≥ 1000 ∧ bytesSent > 0 then (bytesSent : Int) else st.lastBytesSent
  let lastBitrateTime1 : Nat :=
    if elapsed ≥ 1000 ∧ bytesSent > 0 then now else st.lastBitrateTime
  let currentBitrate2 : ℚ :=
    if q.mbpsSendRate > 0 ∧ currentBitrate1 = 0 then ((q.mbpsSendRate * 1000000 : Int) : ℚ)
    else currentBitrate1
  let connectionState1 : SrtConnectionState :=
    if bytesSent > 0 then SrtConnectionState.CONNECTED
    else if q.pktSentTotal > 0 then SrtConnectionState.CONNECTED
    else st.stats.connectionState
  { st with
    stats := { st.stats with
      packetsLost := toUInt64Cast q.pktSentLoss
      packetsRetransmitted := toUInt64Cast q.pktRetrans
      packetsDropped := toUInt64Cast q.pktSndDrop
      rtt := q.msRTT
      bandwidth := q.mbpsBandwidth * 1000000
      bytesSent := bytesSent
      currentBitrate := currentBitrate2
      connectionState := connectionState1 }
    lastBytesSent := lastBytesSent1
    lastBitrateTime := lastBitrateTime1 }

/-- UDP branch of `updateSrtStats` (`srt_streamer.cpp` lines 681-705),
run when no `srtSink` exists: take `bytesSent` from the muxer byte
counter, recompute the windowed bitrate when at least 1000 ms have
elapsed, seed `currentBitrate` from the configured video+audio bitrate
when still zero, report CONNECTED, and zero the packet counters and RTT. -/
def udpRefresh (st : ImplState) (now : Nat) : ImplState :=
  let elapsed : Nat := now - st.lastBitrateTime
  let bytesSent : Nat := st.muxerBytesSent
  let byteDiff : Int := (bytesSent : Int) - st.lastBytesSent
  let currentBitrate1 : ℚ :=
    if elapsed ≥ 1000 ∧ bytesSent > 0 ∧ byteDiff > 0 then
      ((byteDiff : ℚ) * 8 * 1000) / (elapsed : ℚ)
    else st.stats.currentBitrate
  let lastBytesSent1 : Int :=
    if elapsed ≥ 1000 ∧ bytesSent > 0 then (bytesSent : Int) else st.lastBytesSent
  let lastBitrateTime1 : Nat :=
    if elapsed ≥ 1000 ∧ bytesSent > 0 then now else st.lastBitrateTime
  let currentBitrate2 : ℚ :=
    if currentBitrate1 = 0 then
      ((st.currentConfig.videoBitrate + st.currentConfig.audioBitrate : Int) : ℚ)
    else currentBitrate1
  { st with
    stats := { st.stats with
      bytesSent := bytesSent
      currentBitrate := currentBitrate2
      connectionState := SrtConnectionState.CONNECTED
      rtt := 0
      packetsLost := 0
      packetsRetransmitted := 0
      packetsDropped := 0 }
    lastBytesSent := lastBytesSent1
    lastBitrateTime := lastBitrateTime1 }

/-- `SrtStreamer::Impl::updateSrtStats` (`srt_streamer.cpp` lines
563-707).  `q` is the result of querying the `stats` property of the SRT
sink (`none` when `g_object_get` yields no structure); it is only
consulted when `srtSink` is non-null.  In the SRT branch the adaptive
bitrate controller runs after the snapshot is built; the UDP branch never
runs it.  The returned `Option Int` is the encoder bitrate push, if any. -/
def updateSrtStats (st : ImplState) (now : Nat) (q : Option SrtSinkStats) :
    ImplState × Option Int :=
  if st.streaming = false then (st, none)
  else if st.hasSrtSink then
    match q with
    | some qs => updateAdaptiveBitrate (srtRefresh st now qs) now
    | none => (st, none)
  else (udpRefresh st now, none)

/-- `SrtStreamer::Impl::getStats` (`srt_streamer.cpp` lines 781-795):
refresh via `updateSrtStats`, then return a copy of the snapshot with
`streamTimeMs` recomputed from the session start time while streaming.
The first component is the mutated object state, the second the snapshot
returned to the caller, the third the encoder bitrate push, if any. -/
def getStats (st : ImplState) (now : Nat) (q : Option SrtSinkStats) :
    ImplState × StreamStats × Option Int :=
  let r := updateSrtStats st now q
  let out : StreamStats :=
    if r.1.streaming then { r.1.stats with streamTimeMs := now - r.1.startTime }
    else r.1.stats
  (r.1, out, r.2)

/-- `SrtStreamer::Impl::cleanup` (`srt_streamer.cpp` lines 523-561):
stop streaming and unref every element pointer. -/
def cleanupOp (st : ImplState) : ImplState :=
  { st with
    streaming := false
    hasPipeline := false
    hasSrtSink := false
    hasVideoEncoder := false }

/-- `SrtStreamer::Impl::createPipeline` (`srt_streamer.cpp` lines
221-403).  `parseOk` models whether `gst_parse_launch` accepts the
pipeline description built from the configuration (the external engine's
decision).  The function cleans up any previous pipeline, stores the
configuration, and delegates to the engine; no validation of the
configuration is performed.  On success the element lookups succeed by
construction of the pipeline string (`video_src`, `audio_src`,
`video_enc`, and `srt_sink` exactly when the transport is SRT), and the
adaptive-bitrate bounds are initialised from the configured video
bitrate (lines 259-266).  Returns (result, new state, error event fired). -/
def createPipeline (st : ImplState) (config : StreamConfig) (parseOk : Bool) :
    Bool × ImplState × Bool :=
  let st1 := cleanupOp st
  let st2 := { st1 with currentConfig := config }
  if parseOk = false then (false, st2, true)
  else
    let kbps : Int := Int.tdiv config.videoBitrate 1000
    (true,
      { st2 with
        hasPipeline := true
        hasSrtSink := config.transport = TransportMode.SRT
        hasVideoEncoder := true
        currentEncoderBitrate := kbps
        targetBitrate := kbps
        maxBitrate := kbps
        minBitrate := max 500 (Int.tdiv kbps 10) },
      false)

/-- `SrtStreamer::Impl::start` (`srt_streamer.cpp` lines 405-478) in the
engine-accepting case and with a pipeline present: reset the byte
counters and the bitrate/adjust timestamps to `now`, mark streaming, and
set the connection state to CONNECTING.  `engineOk` models the
`gst_element_set_state(pipeline, GST_STATE_PLAYING)` outcome. -/
def startOp (st : ImplState) (now : Nat) (engineOk : Bool) : Bool × ImplState :=
  if st.hasPipeline = false then (false, st)
  else if engineOk = false then (false, st)
  else
    (true,
      { st with
        streaming := true
        startTime := now
        lastBitrateTime := now
        lastBitrateAdjustTime := now
        lastBytesSent := 0
        muxerBytesSent := 0
        stats := { st.stats with connectionState := SrtConnectionState.CONNECTING } })

/-- The pad probe installed on the `x264enc` source pad (`srt_streamer.cpp`
lines 310-374): each encoded output buffer adds its size to the atomic
`muxerBytesSent` counter. -/
def probeVideoBytes (st : ImplState) (n : Nat) : ImplState :=
  { st with muxerBytesSent := st.muxerBytesSent + n }

/-- Events observable during one streaming session: buffer pushes
(`pushVideoFrame` / `pushAudioSamples`, which touch no counter state,
lines 797-873), encoder-output probe callbacks, and `getStats` polls. -/
inductive SessionEv where
  | pushVideo
  | pushAudio
  | probe (n : Nat)
  | poll (now : Nat) (q : Option SrtSinkStats)
deriving DecidableEq

/-- Effect of one session event on the streamer state. -/
def sessionStep (st : ImplState) (ev : SessionEv) : ImplState :=
  match ev with
  | SessionEv.pushVideo => st
  | SessionEv.pushAudio => st
  | SessionEv.probe n => probeVideoBytes st n
  | SessionEv.poll now q => (getStats st now q).1

/-- The `bytesSent` values successive `getStats` polls return along a
sequence of session events. -/
def pollOutputs (st : ImplState) : List SessionEv → List Nat
  | [] => []
  | SessionEv.poll now q :: evs =>
      (getStats st now q).2.1.bytesSent ::
        pollOutputs (sessionStep st (SessionEv.poll now q)) evs
  | ev :: evs => pollOutputs (sessionStep st ev) evs

/-- The adaptive-bitrate bounds invariant claimed by the specification. -/
def abrInv (st : ImplState) : Prop :=
  st.minBitrate ≤ st.currentEncoderBitrate ∧ st.currentEncoderBitrate ≤ st.maxBitrate

instance (st : ImplState) : Decidable (abrInv st) := by
  unfold abrInv; infer_instance

/-- Replace the telemetry snapshot wholesale: between two ABR evaluations
the aggregator may rewrite any `StreamStats` field (the engine and the
network choose the values), while the controller-owned fields persist. -/
def setStats (st : ImplState) (s : StreamStats) : ImplState :=
  { st with stats := s }

/-- A sequence of ABR evaluations: before each evaluation the environment
installs an arbitrary snapshot, then `updateAdaptiveBitrate` runs at the
given time. -/
def abrRun (st : ImplState) (steps : List (StreamStats × Nat)) : ImplState :=
  steps.foldl (fun acc p => (updateAdaptiveBitrate (setStats acc p.1) p.2).1) st

/-!
Concrete test states used by the scenario witnesses and counterexamples.
All of them describe a streamer whose pipeline was created with a
4000 kbps video bitrate (so `maxBitrate = 4000`, `minBitrate = 500`) and
whose last ABR adjustment happened at time 0.
-/

/-- Scenario A of the specification: 123704 bytes sent means an estimated
94 packets, so 6 lost packets give a loss rate of exactly 6%, with a
50 ms RTT. -/
def stScenarioA : ImplState :=
  { initImplState with
    streaming := true
    hasPipeline := true
    hasSrtSink := true
    hasVideoEncoder := true
    currentEncoderBitrate := 4000
    targetBitrate := 4000
    minBitrate := 500
    maxBitrate := 4000
    stats := { defaultStreamStats with bytesSent := 123704, packetsLost := 6, rtt := 50 } }

/-- Perfect network while already at the maximum bitrate: the decision
ladder holds, so the computed change is zero. -/
def stGoodAtMax : ImplState :=
  { stScenarioA with stats := defaultStreamStats }

/-- Scenario C of the specification: the decision ladder holds at
3000 kbps (RTT 150 ms blocks both cuts and the raise) while the SRT
bandwidth estimate is 2000 kbps. -/
def stScenarioC : ImplState :=
  { stScenarioA with
    currentEncoderBitrate := 3000
    stats := { defaultStreamStats with rtt := 150, bandwidth := 2000000 } }

/-- A 100 kbps bandwidth estimate whose 80% ceiling (80 kbps) lies below
`minBitrate = 500`. -/
def stBwFloor : ImplState :=
  { stScenarioA with
    stats := { defaultStreamStats with bandwidth := 100000, bytesSent := 500000 } }

/-- A best-effort (UDP) session at 2000 kbps with 500000 bytes counted by
the encoder-output probe and a perfect (zeroed) network snapshot. -/
def stUdpPoll : ImplState :=
  { initImplState with
    streaming := true
    hasPipeline := true
    hasVideoEncoder := true
    currentEncoderBitrate := 2000
    targetBitrate := 2000
    minBitrate := 500
    maxBitrate := 4000
    muxerBytesSent := 500000 }

/-- A UDP session whose previous sampling window ended with
`lastBytesSent = 1000` and `currentBitrate = 8000` bps, and whose byte
counter has not advanced since. -/
def stZeroDelta : ImplState :=
  { initImplState with
    streaming := true
    hasPipeline := true
    lastBytesSent := 1000
    muxerBytesSent := 1000
    stats := { defaultStreamStats with currentBitrate := 8000 } }

/-- A freshly started UDP session with 1000 probe-counted bytes and no
bitrate sample yet. -/
def stWindowPoll : ImplState :=
  { initImplState with
    streaming := true
    hasPipeline := true
    muxerBytesSent := 1000 }

/-- An SRT session with 1000 probe-counted bytes. -/
def stSrtPoll : ImplState :=
  { initImplState with
    streaming := true
    hasPipeline := true
    hasSrtSink := true
    hasVideoEncoder := true
    muxerBytesSent := 1000 }

/-- An `srtsink` stats structure that reports no bytes sent yet but a
non-zero loss counter, RTT and bandwidth estimate. -/
def qSrtZeroBytes : SrtSinkStats :=
  { byteSentTotal := 0
    pktSentTotal := 0
    pktSentLoss := 3
    pktRetrans := 0
    pktSndDrop := 0
    msRTT := 40
    mbpsSendRate := 0
    mbpsBandwidth := 2 }

/-- An `srtsink` stats structure with every probed field absent. -/
def qZeroRaw : SrtSinkStats :=
  { byteSentTotal := 0
    pktSentTotal := 0
    pktSentLoss := 0
    pktRetrans := 0
    pktSndDrop := 0
    msRTT := 0
    mbpsSendRate := 0
    mbpsBandwidth := 0 }

/-- An `srtsink` stats structure reporting a cumulative byte total of 500,
less than the 1000 bytes already counted by the encoder probe. -/
def qByteDrop : SrtSinkStats :=
  { qZeroRaw with byteSentTotal := 500 }

/-- A configuration whose video bitrate (100 kbps) lies below the 500 kbps
minimum-bitrate floor. -/
def smallConfig : StreamConfig :=
  { defaultStreamConfig with videoBitrate := 100000 }

/-- A malformed configuration: empty target host, zero dimensions, zero
rates. -/
def badConfig : StreamConfig :=
  { defaultStreamConfig with
    srtHost := ""
    videoWidth := 0
    videoHeight := 0
    videoBitrate := 0
    frameRate := 0 }

attribute [local semireducible] Rat.inv Rat.mul Rat.add Rat.sub

/-- C++ `int` division (truncation toward zero) agrees with Euclidean
division on non-negative operands. -/
theorem tdiv_eq_ediv_nonneg (a b : Int) (ha : 0 ≤ a) (hb : 0 ≤ b) : a.tdiv b = a / b := by
  obtain ⟨m, rfl⟩ := Int.eq_ofNat_of_zero_le ha
  obtain ⟨n, rfl⟩ := Int.eq_ofNat_of_zero_le hb
  rfl

/-- The hysteresis comparison `diff > current / 20` is the exact 5%
threshold: for non-negative operands it holds iff `20 * diff > current`. -/
theorem tdiv_gate (c d : Int) (hc : 0 ≤ c) : Int.tdiv c 20 < d ↔ c < 20 * d := by
  rw [tdiv_eq_ediv_nonneg c 20 hc (by omega)]
  omega

/-- Truncating division by a non-negative divisor does not increase a
non-negative dividend. -/
theorem tdiv_le_self_nonneg (a b : Int) (ha : 0 ≤ a) (hb : 0 ≤ b) : a.tdiv b ≤ a := by
  rw [tdiv_eq_ediv_nonneg a b ha hb]
  exact Int.ediv_le_self b ha

/-- One ABR evaluation preserves the bounds invariant: either it leaves
the state unchanged, or it installs the clamped candidate bitrate. -/
theorem abrStep_inv (st : ImplState) (now : Nat) (h : abrInv st) :
    abrInv (updateAdaptiveBitrate st now).1 := by
  simp only [updateAdaptiveBitrate]
  split
  · exact h
  · split
    · exact h
    · split
      · refine ⟨le_max_left _ _, max_le (le_trans h.1 h.2) (min_le_left _ _)⟩
      · exact h

/-- Installing a fresh telemetry snapshot does not touch the
controller-owned fields, so the bounds invariant survives it. -/
theorem setStats_inv (st : ImplState) (s : StreamStats) (h : abrInv st) :
    abrInv (setStats st s) := h

/-- The bounds invariant is preserved by any sequence of ABR evaluations
with arbitrary snapshots installed in between. -/
theorem abrRun_inv (steps : List (StreamStats × Nat)) :
    ∀ st : ImplState, abrInv st → abrInv (abrRun st steps) := by
  induction steps with
  | nil => intro st h; exact h
  | cons p steps ih =>
      intro st h
      simp only [abrRun, List.foldl_cons]
      exact ih _ (abrStep_inv _ _ (setStats_inv _ _ h))

/-- A pipeline created from a configuration of at least 500 kbps starts
with the bounds invariant established. -/
theorem createPipeline_inv (st : ImplState) (config : StreamConfig)
    (h : 500 ≤ Int.tdiv config.videoBitrate 1000) :
    abrInv (createPipeline st config true).2.1 := by
  unfold createPipeline cleanupOp abrInv
  simp only [Bool.true_eq_false, if_false]
  exact ⟨max_le h (tdiv_le_self_nonneg _ _ (by omega) (by omega)), le_refl _⟩

/-- C1 (amended): for every configuration whose video bitrate is at least
500 kbps, the invariant `minBitrate ≤ currentEncoderBitrate ≤ maxBitrate`
holds after bounds initialization and after every sequence of ABR
adjustments (with arbitrary telemetry snapshots installed between
evaluations).  The 500 kbps restriction is forced by the counterexample:
for smaller configured bitrates the initialization itself sets
`minBitrate = 500 > maxBitrate = currentEncoderBitrate`. -/
theorem abr_bounds_invariant_amended (st0 : ImplState) (config : StreamConfig)
    (steps : List (StreamStats × Nat)) (h : 500 ≤ Int.tdiv config.videoBitrate 1000) :
    abrInv (abrRun (createPipeline st0 config true).2.1 steps) :=
  abrRun_inv steps _ (createPipeline_inv st0 config h)

/-- Witness for C1: the default 4000 kbps configuration satisfies the
hypothesis, and the invariant holds after a scenario-A adjustment step. -/
theorem abr_bounds_invariant_witness :
    500 ≤ Int.tdiv defaultStreamConfig.videoBitrate 1000 ∧
    abrInv (abrRun (createPipeline initImplState defaultStreamConfig true).2.1
      [({ defaultStreamStats with bytesSent := 123704, packetsLost := 6, rtt := 50 }, 2500)]) :=
  ⟨by decide,
   abr_bounds_invariant_amended initImplState defaultStreamConfig _ (by decide)⟩

/-- Counterexample for C1 as stated: with a configured video bitrate of
100 kbps, bounds initialization itself produces
`minBitrate = 500 > 100 = currentEncoderBitrate = maxBitrate`, so the
invariant fails immediately after initialization. -/
theorem abr_bounds_invariant_fails_small_config :
    (createPipeline initImplState smallConfig true).2.1.minBitrate = 500 ∧
    (createPipeline initImplState smallConfig true).2.1.currentEncoderBitrate = 100 ∧
    ¬ abrInv (createPipeline initImplState smallConfig true).2.1 := by
  refine ⟨by decide, by decide, ?_⟩
  intro h
  exact absurd (le_trans h.1 h.2) (by decide)

/-- C4: whenever the controller evaluates with a loss rate above 5% or an
RTT above 500 ms, the first row of the decision ladder fires and the
decision-stage bitrate is `currentEncoderBitrate * 70 / 100` in the C++
integer arithmetic (exactly `current × 0.70` whenever the product is
divisible, as in scenario A). -/
theorem aggressive_cut_decision (st : ImplState)
    (h : abrLossRate st > 5 ∨ st.stats.rtt > 500) :
    abrDecision st (abrLossRate st) = Int.tdiv (st.currentEncoderBitrate * 70) 100 := by
  unfold abrDecision
  rw [if_pos h]

/-- Witness for C4, scenario A: loss rate 6% at 4000 kbps; the decision
is the aggressive cut to 2800 kbps and the full (eligible) evaluation
commits it. -/
theorem aggressive_cut_scenario_a :
    (abrLossRate stScenarioA > 5 ∨ stScenarioA.stats.rtt > 500) ∧
    abrDecision stScenarioA (abrLossRate stScenarioA) = 2800 ∧
    (updateAdaptiveBitrate stScenarioA 2500).1.currentEncoderBitrate = 2800 ∧
    (updateAdaptiveBitrate stScenarioA 2500).2 = some 2800 :=
  ⟨by decide,
   by rw [aggressive_cut_decision stScenarioA (by decide)]; decide,
   by decide, by decide⟩

/-- C5: the hysteresis gate.  A computed (post-ceiling, post-clamp)
candidate within 5% of `currentEncoderBitrate` leaves the controller
state untouched and pushes nothing to the encoder; a push happens only
for a strictly greater than 5% relative change, and only then are
`currentEncoderBitrate` and `lastAdjustTimestamp` updated. -/
theorem hysteresis_gate (st : ImplState) (now : Nat)
    (hc : 0 ≤ st.currentEncoderBitrate) :
    (20 * |abrComputedBitrate st - st.currentEncoderBitrate| ≤ st.currentEncoderBitrate →
      updateAdaptiveBitrate st now = (st, none)) ∧
    (∀ v : Int, (updateAdaptiveBitrate st now).2 = some v →
      st.currentEncoderBitrate < 20 * |v - st.currentEncoderBitrate| ∧
      (updateAdaptiveBitrate st now).1.currentEncoderBitrate = v ∧
      (updateAdaptiveBitrate st now).1.lastBitrateAdjustTime = now) ∧
    ((updateAdaptiveBitrate st now).2 = none → (updateAdaptiveBitrate st now).1 = st) := by
  simp only [updateAdaptiveBitrate]
  split
  · exact ⟨fun _ => rfl, fun v hv => Option.noConfusion hv, fun _ => rfl⟩
  · split
    · exact ⟨fun _ => rfl, fun v hv => Option.noConfusion hv, fun _ => rfl⟩
    · split
      · next hgate =>
          refine ⟨?_, ?_, ?_⟩
          · intro hle
            exact absurd ((tdiv_gate _ _ hc).1 hgate) (not_lt.2 hle)
          · intro v hv
            obtain rfl := Option.some.inj hv
            exact ⟨(tdiv_gate _ _ hc).1 hgate, rfl, rfl⟩
          · intro hnone
            exact Option.noConfusion hnone
      · exact ⟨fun _ => rfl, fun v hv => Option.noConfusion hv, fun _ => rfl⟩

/-- Witness for C5: perfect network while already at the maximum bitrate
computes a zero change, which is below the 5% threshold, so the eligible
evaluation is a no-op. -/
theorem hysteresis_gate_witness :
    0 ≤ stGoodAtMax.currentEncoderBitrate ∧
    20 * |abrComputedBitrate stGoodAtMax - stGoodAtMax.currentEncoderBitrate| ≤
      stGoodAtMax.currentEncoderBitrate ∧
    updateAdaptiveBitrate stGoodAtMax 2500 = (stGoodAtMax, none) :=
  ⟨by decide, by decide, (hysteresis_gate stGoodAtMax 2500 (by decide)).1 (by decide)⟩

/-- C6 (amended): an ABR evaluation performed less than 2000 ms after
`lastAdjustTimestamp` — the time of the last committed adjustment — is a
complete no-op, regardless of the observed loss or RTT.  The claim's
formulation in terms of the spacing between two evaluations is refuted by
the counterexample: a rate-limited (hence non-committing) first call does
not advance `lastAdjustTimestamp`, so the second call may adjust even
when it comes less than 2000 ms after the first. -/
theorem rate_limit_amended (st : ImplState) (now : Nat)
    (h : now - st.lastBitrateAdjustTime < 2000) :
    updateAdaptiveBitrate st now = (st, none) := by
  simp only [updateAdaptiveBitrate, if_pos h]
  split <;> rfl

/-- Witness for C6: a call 1500 ms after the last committed adjustment
changes nothing even though scenario-A loss conditions hold. -/
theorem rate_limit_witness :
    1500 - stScenarioA.lastBitrateAdjustTime < 2000 ∧
    updateAdaptiveBitrate stScenarioA 1500 = (stScenarioA, none) :=
  ⟨by decide, rate_limit_amended _ _ (by decide)⟩

/-- Counterexample for C6 as stated: two evaluations 501 ms apart (at
t = 1999 and t = 2500, with the last committed adjustment at t = 0).  The
first is rate-limited and changes nothing, so it does not restart the
2000 ms window; the second commits the aggressive cut to 2800 kbps even
though it comes less than 2000 ms after the first evaluation. -/
theorem rate_limit_counterexample :
    updateAdaptiveBitrate stScenarioA 1999 = (stScenarioA, none) ∧
    2500 - 1999 < 2000 ∧
    (updateAdaptiveBitrate ((updateAdaptiveBitrate stScenarioA 1999).1) 2500).1.currentEncoderBitrate
      = 2800 ∧
    stScenarioA.currentEncoderBitrate = 4000 := by
  decide

/-- C7 (amended): when a sender-side bandwidth estimate is available the
ceiling stage caps the candidate at 80% of the estimate (in the C++
integer arithmetic) and never raises the value chosen by the decision
ladder; the final clamped candidate also respects the cap whenever the
cap is at least `minBitrate`.  The unconditional form of the claim is
refuted by the counterexample: the `minBitrate` floor is applied after
the ceiling and overrides it.  Scenario C holds: with a 2000 kbps
estimate and a decision holding at 3000 kbps, the committed bitrate is
1600 kbps. -/
theorem bandwidth_ceiling_amended :
    (∀ (st : ImplState) (nb : Int), 0 < st.stats.bandwidth →
      abrBandwidthCeiling st nb ≤ Int.tdiv (Int.tdiv st.stats.bandwidth 1000 * 80) 100 ∧
      abrBandwidthCeiling st nb ≤ nb) ∧
    (∀ st : ImplState, 0 < st.stats.bandwidth →
      st.minBitrate ≤ Int.tdiv (Int.tdiv st.stats.bandwidth 1000 * 80) 100 →
      abrComputedBitrate st ≤ Int.tdiv (Int.tdiv st.stats.bandwidth 1000 * 80) 100) ∧
    ((updateAdaptiveBitrate stScenarioC 2500).1.currentEncoderBitrate = 1600 ∧
      (updateAdaptiveBitrate stScenarioC 2500).2 = some 1600) := by
  have hceil : ∀ (st : ImplState) (nb : Int), 0 < st.stats.bandwidth →
      abrBandwidthCeiling st nb ≤ Int.tdiv (Int.tdiv st.stats.bandwidth 1000 * 80) 100 ∧
      abrBandwidthCeiling st nb ≤ nb := by
    intro st nb hbw
    simp only [abrBandwidthCeiling]
    rw [if_pos hbw]
    constructor
    · split
      · exact le_refl _
      · next h => exact le_of_not_lt h
    · split
      · next h => exact le_of_lt h
      · exact le_refl _
  refine ⟨hceil, ?_, by decide, by decide⟩
  intro st hbw hmin
  unfold abrComputedBitrate
  exact max_le hmin (le_trans (min_le_right _ _) (hceil st _ hbw).1)

/-- Witness for C7: with a 100 kbps estimate the ceiling stage caps any
candidate at 80 kbps and never raises it. -/
theorem bandwidth_ceiling_witness :
    0 < stBwFloor.stats.bandwidth ∧
    abrBandwidthCeiling stBwFloor 4000 ≤ 80 ∧
    abrBandwidthCeiling stBwFloor 4000 ≤ 4000 := by
  refine ⟨by decide, ?_, (bandwidth_ceiling_amended.1 stBwFloor 4000 (by decide)).2⟩
  have h := (bandwidth_ceiling_amended.1 stBwFloor 4000 (by decide)).1
  have e : Int.tdiv (Int.tdiv stBwFloor.stats.bandwidth 1000 * 80) 100 = 80 := by decide
  rw [e] at h
  exact h

/-- Counterexample for C7 as stated: with a 100 kbps bandwidth estimate
(cap 80 kbps) and `minBitrate = 500`, the eligible evaluation commits
500 kbps — the final applied bitrate exceeds 80% of the estimate because
the minimum-bitrate clamp runs after the bandwidth ceiling. -/
theorem bandwidth_ceiling_counterexample :
    stBwFloor.stats.bandwidth = 100000 ∧
    Int.tdiv (Int.tdiv stBwFloor.stats.bandwidth 1000 * 80) 100 = 80 ∧
    (updateAdaptiveBitrate stBwFloor 2500).2 = some 500 ∧
    (updateAdaptiveBitrate stBwFloor 2500).1.currentEncoderBitrate = 500 ∧
    ¬ ((500 : Int) ≤ 80) := by
  decide

/-- C8 (amended): only a reliable-transport (SRT) refresh that obtains a
stats structure invokes the adaptive bitrate controller on the snapshot
it just built.  A best-effort (UDP) refresh — the byte-counting fallback
path — never invokes it (the controller-owned fields are untouched and
nothing is pushed to the encoder), and an SRT refresh whose stats query
returns nothing changes no state at all. -/
theorem aggregator_invokes_abr_amended :
    (∀ (st : ImplState) (now : Nat) (q : Option SrtSinkStats),
      st.streaming = true → st.hasSrtSink = false →
      (updateSrtStats st now q).1.currentEncoderBitrate = st.currentEncoderBitrate ∧
      (updateSrtStats st now q).1.lastBitrateAdjustTime = st.lastBitrateAdjustTime ∧
      (updateSrtStats st now q).2 = none) ∧
    (∀ (st : ImplState) (now : Nat) (qs : SrtSinkStats),
      st.streaming = true → st.hasSrtSink = true →
      updateSrtStats st now (some qs) = updateAdaptiveBitrate (srtRefresh st now qs) now) ∧
    (∀ (st : ImplState) (now : Nat),
      st.streaming = true → st.hasSrtSink = true →
      updateSrtStats st now none = (st, none)) := by
  refine ⟨?_, ?_, ?_⟩
  · intro st now q h1 h2
    simp [updateSrtStats, h1, h2, udpRefresh]
  · intro st now qs h1 h2
    simp [updateSrtStats, h1, h2]
  · intro st now h1 h2
    simp [updateSrtStats, h1, h2]

/-- Witness for C8: an SRT refresh with an (all-zero) stats structure is
exactly the controller applied to the freshly built snapshot. -/
theorem aggregator_invokes_abr_witness :
    stSrtPoll.streaming = true ∧ stSrtPoll.hasSrtSink = true ∧
    updateSrtStats stSrtPoll 100 (some qZeroRaw) =
      updateAdaptiveBitrate (srtRefresh stSrtPoll 100 qZeroRaw) 100 :=
  ⟨by decide, by decide,
   aggregator_invokes_abr_amended.2.1 stSrtPoll 100 qZeroRaw (by decide) (by decide)⟩

/-- Counterexample for C8 as stated: a UDP-mode refresh while STREAMING
builds the snapshot from the byte-counting fallback but does not invoke
the controller: the encoder bitrate stays 2000 kbps and nothing is
pushed, although invoking the controller on the very snapshot the
refresh built (perfect network, 2000 < 4000 = max) would have raised the
bitrate to 2200 kbps. -/
theorem aggregator_invokes_abr_counterexample :
    (updateSrtStats stUdpPoll 5000 none).1.currentEncoderBitrate = 2000 ∧
    (updateSrtStats stUdpPoll 5000 none).2 = none ∧
    (updateAdaptiveBitrate ((updateSrtStats stUdpPoll 5000 none).1) 5000).1.currentEncoderBitrate
      = 2200 ∧
    (updateAdaptiveBitrate ((updateSrtStats stUdpPoll 5000 none).1) 5000).2 = some 2200 := by
  decide

/-- C10 (amended): `createPipeline` performs no validation of the
configuration — it unconditionally tears down any previous pipeline,
overwrites the stored configuration, and delegates to the engine (a
malformed configuration succeeds whenever the engine accepts the
description).  When the engine rejects, it surfaces an error event and
returns failure with no pipeline handle retained, but the overwritten
configuration persists.  On success the ABR bounds are initialised from
the configured video bitrate. -/
theorem create_pipeline_amended :
    (∀ (st : ImplState) (config : StreamConfig),
      (createPipeline st config false).1 = false ∧
      (createPipeline st config false).2.2 = true ∧
      (createPipeline st config false).2.1.hasPipeline = false ∧
      (createPipeline st config false).2.1.streaming = false ∧
      (createPipeline st config false).2.1.currentConfig = config) ∧
    (∀ (st : ImplState) (config : StreamConfig),
      (createPipeline st config true).1 = true ∧
      (createPipeline st config true).2.1.currentConfig = config ∧
      (createPipeline st config true).2.1.maxBitrate = Int.tdiv config.videoBitrate 1000 ∧
      (createPipeline st config true).2.1.minBitrate =
        max 500 (Int.tdiv (Int.tdiv config.videoBitrate 1000) 10)) := by
  constructor <;> intro st config <;> simp [createPipeline, cleanupOp]

/-- Counterexample for C10 as stated: a malformed configuration (empty
target host, zero dimensions and rates) is not rejected — `createPipeline`
succeeds when the engine accepts; and on an engine rejection the stored
configuration has already been overwritten, so a failed call does change
configuration state. -/
theorem create_pipeline_counterexample :
    badConfig.srtHost = "" ∧ badConfig.videoWidth = 0 ∧ badConfig.videoBitrate = 0 ∧
    (createPipeline initImplState badConfig true).1 = true ∧
    (createPipeline stScenarioA badConfig false).1 = false ∧
    (createPipeline stScenarioA badConfig false).2.1.currentConfig = badConfig ∧
    stScenarioA.currentConfig ≠ badConfig := by
  decide

/-- C3 (amended): a best-effort (UDP) refresh — the fallback path used
when no reliable-transport sink exists — zeroes the loss, retransmit,
drop and RTT fields and leaves the bandwidth estimate untouched; and
scenario D holds: 500000 fallback-counted bytes polled 2 seconds into a
UDP session report CONNECTED with all loss fields and RTT zero.  The
claim's wider premise, a reliable source that is present but reports a
zero cumulative byte count, is refuted by the counterexample: such a
refresh copies the source's counters and bandwidth estimate verbatim. -/
theorem fallback_stats_zero_amended :
    (∀ (st : ImplState) (now : Nat) (q : Option SrtSinkStats),
      st.streaming = true → st.hasSrtSink = false →
      (updateSrtStats st now q).1.stats.packetsLost = 0 ∧
      (updateSrtStats st now q).1.stats.packetsRetransmitted = 0 ∧
      (updateSrtStats st now q).1.stats.packetsDropped = 0 ∧
      (updateSrtStats st now q).1.stats.rtt = 0 ∧
      (updateSrtStats st now q).1.stats.bandwidth = st.stats.bandwidth) ∧
    ((getStats stUdpPoll 2000 none).2.1.connectionState = SrtConnectionState.CONNECTED ∧
      (getStats stUdpPoll 2000 none).2.1.bytesSent = 500000 ∧
      (getStats stUdpPoll 2000 none).2.1.packetsLost = 0 ∧
      (getStats stUdpPoll 2000 none).2.1.packetsRetransmitted = 0 ∧
      (getStats stUdpPoll 2000 none).2.1.packetsDropped = 0 ∧
      (getStats stUdpPoll 2000 none).2.1.rtt = 0) := by
  refine ⟨?_, by decide⟩
  intro st now q h1 h2
  simp [updateSrtStats, h1, h2, udpRefresh]

/-- Witness for C3: a UDP refresh 2 seconds into the scenario-D session. -/
theorem fallback_stats_zero_witness :
    stUdpPoll.streaming = true ∧ stUdpPoll.hasSrtSink = false ∧
    (updateSrtStats stUdpPoll 2000 none).1.stats.packetsLost = 0 ∧
    (updateSrtStats stUdpPoll 2000 none).1.stats.rtt = 0 ∧
    (updateSrtStats stUdpPoll 2000 none).1.stats.bandwidth = stUdpPoll.stats.bandwidth :=
  ⟨by decide, by decide,
   (fallback_stats_zero_amended.1 stUdpPoll 2000 none (by decide) (by decide)).1,
   (fallback_stats_zero_amended.1 stUdpPoll 2000 none (by decide) (by decide)).2.2.2.1,
   (fallback_stats_zero_amended.1 stUdpPoll 2000 none (by decide) (by decide)).2.2.2.2⟩

/-- Counterexample for C3 as stated: a reliable source that is present
but reports a zero cumulative byte count, together with a non-zero loss
counter, RTT and bandwidth estimate.  The refresh copies those values
into the snapshot instead of zeroing them and leaving the bandwidth
estimate unset. -/
theorem fallback_stats_zero_counterexample :
    qSrtZeroBytes.byteSentTotal = 0 ∧
    (updateSrtStats stSrtPoll 1000 (some qSrtZeroBytes)).1.stats.packetsLost = 3 ∧
    (updateSrtStats stSrtPoll 1000 (some qSrtZeroBytes)).1.stats.rtt = 40 ∧
    (updateSrtStats stSrtPoll 1000 (some qSrtZeroBytes)).1.stats.bandwidth = 2000000 := by
  decide

/-- The adaptive bitrate controller never touches the telemetry snapshot
or the sampling-window markers: every branch of `updateAdaptiveBitrate`
modifies at most `currentEncoderBitrate` and `lastBitrateAdjustTime`. -/
theorem updateAdaptiveBitrate_stats_fields (st : ImplState) (now : Nat) :
    (updateAdaptiveBitrate st now).1.stats = st.stats ∧
    (updateAdaptiveBitrate st now).1.lastBytesSent = st.lastBytesSent ∧
    (updateAdaptiveBitrate st now).1.lastBitrateTime = st.lastBitrateTime := by
  simp only [updateAdaptiveBitrate]
  split
  · exact ⟨rfl, rfl, rfl⟩
  · split
    · exact ⟨rfl, rfl, rfl⟩
    · split
      · exact ⟨rfl, rfl, rfl⟩
      · exact ⟨rfl, rfl, rfl⟩

/-- C2 (amended): the windowed bitrate estimate, keyed on the elapsed
time since the stored window marker `lastSampleTime` (`lastBitrateTime`),
on both telemetry paths: the UDP (byte-counting fallback) refresh and
the SRT-branch refresh, whose cumulative byte count prefers the sink
total and falls back to the probe counter.  On either path, a refresh
less than 1000 ms after the marker leaves `currentBitrate` (if already
seeded) and both window markers unchanged; a refresh at least 1000 ms
after the marker with a positive byte delta Δ over the elapsed window E
sets `currentBitrate = Δ * 8 * 1000 / E` and advances both markers.  The
claim's formulation for Δ = 0 windows (which keep the previous value
instead of reporting zero) and for poll spacing measured between polls
rather than from the marker is refuted by the counterexample. -/
theorem windowed_bitrate_amended :
    ∀ (st : ImplState) (now : Nat),
      st.streaming = true →
      ((st.hasSrtSink = false →
        ((now - st.lastBitrateTime < 1000 → st.stats.currentBitrate ≠ 0 →
          (updateSrtStats st now none).1.stats.currentBitrate = st.stats.currentBitrate ∧
          (updateSrtStats st now none).1.lastBytesSent = st.lastBytesSent ∧
          (updateSrtStats st now none).1.lastBitrateTime = st.lastBitrateTime) ∧
        (1000 ≤ now - st.lastBitrateTime → 0 < st.muxerBytesSent →
          st.lastBytesSent < (st.muxerBytesSent : Int) →
          (updateSrtStats st now none).1.stats.currentBitrate =
            (((st.muxerBytesSent : Int) - st.lastBytesSent : Int) : ℚ) * 8 * 1000
              / ((now - st.lastBitrateTime : Nat) : ℚ) ∧
          (updateSrtStats st now none).1.lastBytesSent = (st.muxerBytesSent : Int) ∧
          (updateSrtStats st now none).1.lastBitrateTime = now))) ∧
      (st.hasSrtSink = true → ∀ qs : SrtSinkStats,
        ((now - st.lastBitrateTime < 1000 → st.stats.currentBitrate ≠ 0 →
          (updateSrtStats st now (some qs)).1.stats.currentBitrate = st.stats.currentBitrate ∧
          (updateSrtStats st now (some qs)).1.lastBytesSent = st.lastBytesSent ∧
          (updateSrtStats st now (some qs)).1.lastBitrateTime = st.lastBitrateTime) ∧
        (∀ b : Nat,
          b = (if qs.byteSentTotal > 0 then qs.byteSentTotal.toNat else st.muxerBytesSent) →
          1000 ≤ now - st.lastBitrateTime → 0 < b → st.lastBytesSent < (b : Int) →
          (updateSrtStats st now (some qs)).1.stats.currentBitrate =
            (((b : Int) - st.lastBytesSent : Int) : ℚ) * 8 * 1000
              / ((now - st.lastBitrateTime : Nat) : ℚ) ∧
          (updateSrtStats st now (some qs)).1.lastBytesSent = (b : Int) ∧
          (updateSrtStats st now (some qs)).1.lastBitrateTime = now)))) := by
  intro st now h1
  constructor
  · intro h2
    have hred : updateSrtStats st now none = (udpRefresh st now, none) := by
      simp [updateSrtStats, h1, h2]
    constructor
    · intro hlt hnz
      rw [hred]
      simp only [udpRefresh]
      have hc1 : ¬(now - st.lastBitrateTime ≥ 1000 ∧ st.muxerBytesSent > 0 ∧
          (st.muxerBytesSent : Int) - st.lastBytesSent > 0) :=
        fun hcon => absurd hcon.1 (not_le.mpr hlt)
      have hc2 : ¬(now - st.lastBitrateTime ≥ 1000 ∧ st.muxerBytesSent > 0) :=
        fun hcon => absurd hcon.1 (not_le.mpr hlt)
      rw [if_neg hc1, if_neg hc2, if_neg hc2, if_neg hnz]
      exact ⟨rfl, rfl, rfl⟩
    · intro hge hmux hdelta
      rw [hred]
      simp only [udpRefresh]
      have hc1 : now - st.lastBitrateTime ≥ 1000 ∧ st.muxerBytesSent > 0 ∧
          (st.muxerBytesSent : Int) - st.lastBytesSent > 0 :=
        ⟨hge, hmux, by omega⟩
      have hc2 : now - st.lastBitrateTime ≥ 1000 ∧ st.muxerBytesSent > 0 := ⟨hge, hmux⟩
      rw [if_pos hc1, if_pos hc2, if_pos hc2]
      have hnum : (0 : ℚ) < (((st.muxerBytesSent : Int) - st.lastBytesSent : Int) : ℚ) := by
        exact_mod_cast show (0 : Int) < (st.muxerBytesSent : Int) - st.lastBytesSent by omega
      have hden : (0 : ℚ) < ((now - st.lastBitrateTime : Nat) : ℚ) := by
        exact_mod_cast show 0 < now - st.lastBitrateTime by omega
      have hpos : (0 : ℚ) <
          (((st.muxerBytesSent : Int) - st.lastBytesSent : Int) : ℚ) * 8 * 1000
            / ((now - st.lastBitrateTime : Nat) : ℚ) :=
        div_pos (by nlinarith) hden
      rw [if_neg (ne_of_gt hpos)]
      exact ⟨rfl, rfl, rfl⟩
  · intro hsrt qs
    have hred : updateSrtStats st now (some qs)
        = updateAdaptiveBitrate (srtRefresh st now qs) now := by
      simp [updateSrtStats, h1, hsrt]
    have hpre := updateAdaptiveBitrate_stats_fields (srtRefresh st now qs) now
    constructor
    · intro hlt hnz
      rw [hred, hpre.1, hpre.2.1, hpre.2.2]
      simp only [srtRefresh]
      have hc1 : ¬(now - st.lastBitrateTime ≥ 1000 ∧
          (if qs.byteSentTotal > 0 then qs.byteSentTotal.toNat else st.muxerBytesSent) > 0 ∧
          ((if qs.byteSentTotal > 0 then qs.byteSentTotal.toNat else st.muxerBytesSent : Nat)
              : Int) - st.lastBytesSent > 0) :=
        fun hcon => absurd hcon.1 (not_le.mpr hlt)
      have hc2 : ¬(now - st.lastBitrateTime ≥ 1000 ∧
          (if qs.byteSentTotal > 0 then qs.byteSentTotal.toNat else st.muxerBytesSent) > 0) :=
        fun hcon => absurd hcon.1 (not_le.mpr hlt)
      have hs : ¬(qs.mbpsSendRate > 0 ∧ st.stats.currentBitrate = 0) :=
        fun hcon => hnz hcon.2
      rw [if_neg hc1, if_neg hc2, if_neg hc2, if_neg hs]
      exact ⟨rfl, rfl, rfl⟩
    · intro b hb hge hbpos hdelta
      rw [hred, hpre.1, hpre.2.1, hpre.2.2]
      simp only [srtRefresh]
      rw [← hb]
      have hc1 : now - st.lastBitrateTime ≥ 1000 ∧ b > 0 ∧
          (b : Int) - st.lastBytesSent > 0 :=
        ⟨hge, hbpos, by omega⟩
      have hc2 : now - st.lastBitrateTime ≥ 1000 ∧ b > 0 := ⟨hge, hbpos⟩
      rw [if_pos hc1, if_pos hc2, if_pos hc2]
      have hnum : (0 : ℚ) < (((b : Int) - st.lastBytesSent : Int) : ℚ) := by
        exact_mod_cast show (0 : Int) < (b : Int) - st.lastBytesSent by omega
      have hden : (0 : ℚ) < ((now - st.lastBitrateTime : Nat) : ℚ) := by
        exact_mod_cast show 0 < now - st.lastBitrateTime by omega
      have hpos : (0 : ℚ) <
          (((b : Int) - st.lastBytesSent : Int) : ℚ) * 8 * 1000
            / ((now - st.lastBitrateTime : Nat) : ℚ) :=
        div_pos (by nlinarith) hden
      have hs : ¬(qs.mbpsSendRate > 0 ∧
          (((b : Int) - st.lastBytesSent : Int) : ℚ) * 8 * 1000
            / ((now - st.lastBitrateTime : Nat) : ℚ) = 0) :=
        fun hcon => (ne_of_gt hpos) hcon.2
      rw [if_neg hs]
      exact ⟨rfl, rfl, rfl⟩

/-- Witness for C2: an early UDP refresh (500 ms into the window) keeps
the seeded 8000 bps value; a 2000 ms UDP window with a 1000-byte delta
reports 1000 × 8 × 1000 / 2000 = 4000 bps; and a 2000 ms SRT-branch
window whose sink reports no bytes falls back to the 1000 probe-counted
bytes and likewise reports 4000 bps. -/
theorem windowed_bitrate_witness :
    ((500 : Nat) - stZeroDelta.lastBitrateTime < 1000 ∧
      (updateSrtStats stZeroDelta 500 none).1.stats.currentBitrate = 8000) ∧
    (1000 ≤ (2000 : Nat) - stWindowPoll.lastBitrateTime ∧
      (updateSrtStats stWindowPoll 2000 none).1.stats.currentBitrate = 4000) ∧
    (1000 ≤ (2000 : Nat) - stSrtPoll.lastBitrateTime ∧
      (updateSrtStats stSrtPoll 2000 (some qZeroRaw)).1.stats.currentBitrate = 4000) := by
  refine ⟨⟨by decide, ?_⟩, ⟨by decide, ?_⟩, ⟨by decide, ?_⟩⟩
  · have h := (((windowed_bitrate_amended stZeroDelta 500 (by decide)).1 (by decide)).1
      (by decide) (by decide)).1
    rw [h]; decide
  · have h := (((windowed_bitrate_amended stWindowPoll 2000 (by decide)).1 (by decide)).2
      (by decide) (by decide) (by decide)).1
    rw [h]; decide
  · have h := (((windowed_bitrate_amended stSrtPoll 2000 (by decide)).2 (by decide) qZeroRaw).2
      1000 (by decide) (by decide) (by decide) (by decide)).1
    rw [h]; decide

/-- Counterexample for C2 as stated: a full 1000 ms window whose byte
delta is zero.  The claim demands `currentBitrate = Δ*8*1000/E = 0` at
the second poll, but the code keeps the previous 8000 bps value (while
still advancing the window marker). -/
theorem windowed_bitrate_counterexample :
    1000 ≤ (1000 : Nat) - stZeroDelta.lastBitrateTime ∧
    (stZeroDelta.muxerBytesSent : Int) - stZeroDelta.lastBytesSent = 0 ∧
    (updateSrtStats stZeroDelta 1000 none).1.stats.currentBitrate = 8000 ∧
    (updateSrtStats stZeroDelta 1000 none).1.lastBitrateTime = 1000 ∧
    (((stZeroDelta.muxerBytesSent : Int) - stZeroDelta.lastBytesSent : Int) : ℚ) * 8 * 1000
      / ((1000 : Nat) : ℚ) = 0 := by
  decide

/-- Every branch of a stats refresh is a record update of the current
state: the session-identity fields (`streaming`, `hasSrtSink`) and the
probe counter `muxerBytesSent` are never modified by it. -/
theorem updateSrtStats_session_fields (st : ImplState) (now : Nat) (q : Option SrtSinkStats) :
    (updateSrtStats st now q).1.streaming = st.streaming ∧
    (updateSrtStats st now q).1.hasSrtSink = st.hasSrtSink ∧
    (updateSrtStats st now q).1.muxerBytesSent = st.muxerBytesSent := by
  simp only [updateSrtStats]
  split
  · exact ⟨rfl, rfl, rfl⟩
  · split
    · cases q with
      | none => exact ⟨rfl, rfl, rfl⟩
      | some qs =>
          simp only [updateAdaptiveBitrate]
          split
          · exact ⟨rfl, rfl, rfl⟩
          · split
            · exact ⟨rfl, rfl, rfl⟩
            · split
              · exact ⟨rfl, rfl, rfl⟩
              · exact ⟨rfl, rfl, rfl⟩
    · exact ⟨rfl, rfl, rfl⟩

/-- While STREAMING in UDP (fallback) mode, a `getStats` poll reports
exactly the current probe counter as `bytesSent`. -/
theorem getStats_udp_bytes (st : ImplState) (now : Nat) (q : Option SrtSinkStats)
    (h1 : st.streaming = true) (h2 : st.hasSrtSink = false) :
    (getStats st now q).2.1.bytesSent = st.muxerBytesSent := by
  simp [getStats, updateSrtStats, h1, h2, udpRefresh]

/-- Along any sequence of session events in UDP mode, the successive
poll outputs are bounded below by the current probe counter and form a
non-decreasing chain. -/
theorem pollOutputs_chain (evs : List SessionEv) :
    ∀ st : ImplState, st.streaming = true → st.hasSrtSink = false →
      List.Chain' (fun a b => a ≤ b) (pollOutputs st evs) ∧
      (∀ x ∈ pollOutputs st evs, st.muxerBytesSent ≤ x) := by
  induction evs with
  | nil =>
      intro st h1 h2
      exact ⟨List.chain'_nil, by intro x hx; simp [pollOutputs] at hx⟩
  | cons ev evs ih =>
      intro st h1 h2
      cases ev with
      | pushVideo =>
          have h := ih st h1 h2
          exact ⟨by simpa [pollOutputs, sessionStep] using h.1,
                 by intro x hx; exact h.2 x (by simpa [pollOutputs, sessionStep] using hx)⟩
      | pushAudio =>
          have h := ih st h1 h2
          exact ⟨by simpa [pollOutputs, sessionStep] using h.1,
                 by intro x hx; exact h.2 x (by simpa [pollOutputs, sessionStep] using hx)⟩
      | probe n =>
          have h := ih (probeVideoBytes st n) h1 h2
          refine ⟨by simpa [pollOutputs, sessionStep] using h.1, ?_⟩
          intro x hx
          have hb := h.2 x (by simpa [pollOutputs, sessionStep] using hx)
          have : (probeVideoBytes st n).muxerBytesSent = st.muxerBytesSent + n := rfl
          omega
      | poll now q =>
          have hfields := updateSrtStats_session_fields st now q
          have h1s : (sessionStep st (SessionEv.poll now q)).streaming = true := by
            rw [show (sessionStep st (SessionEv.poll now q)).streaming
                  = (updateSrtStats st now q).1.streaming from rfl, hfields.1]
            exact h1
          have h2s : (sessionStep st (SessionEv.poll now q)).hasSrtSink = false := by
            rw [show (sessionStep st (SessionEv.poll now q)).hasSrtSink
                  = (updateSrtStats st now q).1.hasSrtSink from rfl, hfields.2.1]
            exact h2
          have hmux : (sessionStep st (SessionEv.poll now q)).muxerBytesSent
              = st.muxerBytesSent := by
            rw [show (sessionStep st (SessionEv.poll now q)).muxerBytesSent
                  = (updateSrtStats st now q).1.muxerBytesSent from rfl, hfields.2.2]
          have h := ih (sessionStep st (SessionEv.poll now q)) h1s h2s
          have hout : pollOutputs st (SessionEv.poll now q :: evs)
              = (getStats st now q).2.1.bytesSent
                :: pollOutputs (sessionStep st (SessionEv.poll now q)) evs := rfl
          have hval : (getStats st now q).2.1.bytesSent = st.muxerBytesSent :=
            getStats_udp_bytes st now q h1 h2
          constructor
          · rw [hout]
            refine List.chain'_cons'.mpr ⟨?_, h.1⟩
            intro y hy
            have hmem := List.mem_of_mem_head? hy
            have := h.2 y hmem
            rw [hval]
            omega
          · intro x hx
            rw [hout] at hx
            rcases List.mem_cons.mp hx with hx | hx
            · rw [hx, hval]
            · have := h.2 x hx
              omega

/-- C9 (amended): on the byte-counting fallback path (best-effort / UDP
transport), `getStats().bytesSent` is monotonically non-decreasing along
any sequence of buffer pushes, probe callbacks and polls within one
streaming session, and the first poll after the next `start()` (which
zeroes the probe counter) reports 0.  The unrestricted claim is refuted
by the counterexample: in SRT mode the sink's cumulative byte total
overrides the probe counter as soon as it turns positive, which can make
`bytesSent` decrease between two polls of the same session. -/
theorem bytes_monotonic_amended :
    (∀ (st : ImplState) (evs : List SessionEv),
      st.streaming = true → st.hasSrtSink = false →
      List.Chain' (fun a b => a ≤ b) (pollOutputs st evs)) ∧
    (∀ (st : ImplState) (t0 t1 : Nat),
      st.hasPipeline = true → st.hasSrtSink = false →
      (getStats (startOp st t0 true).2 t1 none).2.1.bytesSent = 0) := by
  constructor
  · intro st evs h1 h2
    exact (pollOutputs_chain evs st h1 h2).1
  · intro st t0 t1 hp hs
    have h1 : (startOp st t0 true).2.streaming = true := by
      simp [startOp, hp]
    have h2 : (startOp st t0 true).2.hasSrtSink = false := by
      simp [startOp, hp]
      exact hs
    have h3 : (startOp st t0 true).2.muxerBytesSent = 0 := by
      simp [startOp, hp]
    rw [getStats_udp_bytes _ _ _ h1 h2, h3]

/-- Witness for C9: a UDP session polled, probed, then polled again
yields a non-decreasing chain of reported byte counts, and a poll
directly after `start()` reports 0. -/
theorem bytes_monotonic_witness :
    stUdpPoll.streaming = true ∧ stUdpPoll.hasSrtSink = false ∧
    List.Chain' (fun a b => a ≤ b)
      (pollOutputs stUdpPoll
        [SessionEv.poll 500 none, SessionEv.probe 700, SessionEv.poll 1200 none]) ∧
    (getStats (startOp stUdpPoll 0 true).2 100 none).2.1.bytesSent = 0 :=
  ⟨by decide, by decide,
   bytes_monotonic_amended.1 stUdpPoll _ (by decide) (by decide),
   bytes_monotonic_amended.2 stUdpPoll 0 100 (by decide) (by decide)⟩

/-- Counterexample for C9 as stated: within one SRT streaming session
(no `start()` in between), a first poll falls back to the 1000
probe-counted bytes, and a second poll adopts the sink's freshly positive
cumulative total of 500 — `getStats().bytesSent` decreases. -/
theorem bytes_monotonic_counterexample :
    (getStats stSrtPoll 100 (some qZeroRaw)).2.1.bytesSent = 1000 ∧
    (getStats ((getStats stSrtPoll 100 (some qZeroRaw)).1) 200 (some qByteDrop)).2.1.bytesSent
      = 500 ∧
    ¬ ((1000 : Nat) ≤ 500) := by
  decide
